import Mathlib

/-!
Verification of the `run_tts.py` text-to-speech command-line tool
(repository `edge-tts-pkg`).

The script is a linear pipeline: resolve the input text (literal `--text`
or a `--text-file`), validate it, format the speech-rate and pitch-rate
integers for the synthesis provider, synthesize to a temporary mp3 file,
post-process the decoded audio with pydub (gain, optional resample and
mono down-mix), export, and unconditionally delete the temporary file.

We embed the script shallowly: the file systems, the external synthesis
provider and the pydub codec operations are modelled by their interface
effect (an audio buffer carries a sample rate, a channel count and an
accumulated gain in dB, over the rationals), while all of the script's own
logic — branching, validation, the volume-to-dB formula, the format
strings — is translated directly from the source.
-/

namespace RunTTS

/-- Output container format, from the `--format` flag
(`choices=['wav', 'mp3']`, `run_tts.py` line 27). -/
inductive Fmt where
  | wav
  | mp3
deriving DecidableEq, Repr

/-- The parsed command-line arguments of `run_tts.py` (lines 17-34).
`text` and `text_file` are `Option String` because argparse leaves an
unsupplied flag as `None`; the remaining flags have defaults and are
always present. -/
structure Args where
  text : Option String
  text_file : Option String
  voice : String
  output : String
  format : Fmt
  sample_rate : ℤ
  volume : ℤ
  speech_rate : ℤ
  pitch_rate : ℤ
deriving Repr

/-- Python truthiness of an optional string, as used by
`if args.text:` and `elif args.text_file:` (lines 38 and 40):
`None` and the empty string are falsy, every other string is truthy. -/
def pyTruthy : Option String → Bool
  | none => false
  | some s => !(s == "")

/-- The world outside the script: the file system (path to content,
where `none` means the file does not exist and `Except.error ()` means it
exists but cannot be read or decoded as UTF-8), the `os.path.abspath`
resolution, and the behaviour of the external collaborators — whether the
edge-tts synthesis call succeeds, the native sample rate and channel
count of the audio it produces, and whether the pydub decode/export step
succeeds. -/
structure World where
  abspath : String → String
  files : String → Option (Except Unit String)
  synthOk : Bool
  nativeFrameRate : ℤ
  nativeChannels : ℤ
  postOk : Bool

/-- Python's `str.strip()` with no argument: remove leading and trailing
whitespace characters. -/
def pyStrip (s : String) : String :=
  ⟨((s.data.dropWhile Char.isWhitespace).reverse.dropWhile Char.isWhitespace).reverse⟩

/-- Reading the `--text-file` (lines 42-54): resolve to an absolute path,
error if the file does not exist (line 45) or cannot be read/decoded
(line 52), otherwise return the content stripped of surrounding
whitespace (`f.read().strip()`, line 50). -/
def readTextFile (w : World) (p : String) : Except Unit String :=
  match w.files (w.abspath p) with
  | none => .error ()
  | some (.error _) => .error ()
  | some (.ok s) => .ok (pyStrip s)

/-- Text resolution (lines 37-54): `text = ""`, then
`if args.text: text = args.text`, `elif args.text_file: ...` reads and
strips the file. An error means the script printed a diagnostic and
called `sys.exit(1)`. -/
def resolveText (args : Args) (w : World) : Except Unit String :=
  if pyTruthy args.text then .ok (args.text.getD "")
  else if pyTruthy args.text_file then readTextFile w (args.text_file.getD "")
  else .ok ""

/-- Whether input validation fails (lines 37-58): either the text file
step errored out, or the resolved text is empty (`if not text:`,
line 56). -/
def validationFails (args : Args) (w : World) : Bool :=
  match resolveText args w with
  | .error _ => true
  | .ok t => t == ""

/-- Python's `f"{n:+d}"` format: the sign (`+` for nonnegative, `-` for
negative) followed by the decimal digits of the absolute value. -/
def pyFormatSignedInt (n : ℤ) : String :=
  (if 0 ≤ n then "+" else "-") ++ toString n.natAbs

/-- `rate_str = f"{args.speech_rate:+d}%"` (line 68). -/
def rate_str (r : ℤ) : String :=
  pyFormatSignedInt r ++ "%"

/-- `pitch_str = f"{args.pitch_rate:+d}Hz"` (line 69). -/
def pitch_str (p : ℤ) : String :=
  pyFormatSignedInt p ++ "Hz"

/-- The volume-to-dB mapping (lines 92-96):
`if args.volume == 100: db_change = 0` else
`db_change = -30 * (1 - args.volume / 100)`, over the rationals
(Python's true division). -/
def db_change (volume : ℤ) : ℚ :=
  if volume = 100 then 0 else -30 * (1 - (volume : ℚ) / 100)

/-- A decoded PCM audio buffer as pydub exposes it: a sample rate, a
channel count, and the gain so far applied to the samples, tracked
additively in dB (pydub's `audio + g` applies a gain of `g` dB). -/
structure AudioSegment where
  frame_rate : ℤ
  channels : ℤ
  gain_db : ℚ
deriving DecidableEq, Repr

/-- pydub `audio + db`: gain application, modelled additively on the
dB state; sample rate and channels are untouched. -/
def applyGain (a : AudioSegment) (db : ℚ) : AudioSegment :=
  { a with gain_db := a.gain_db + db }

/-- pydub `audio.set_frame_rate(r)`: resample to `r`. -/
def set_frame_rate (a : AudioSegment) (r : ℤ) : AudioSegment :=
  { a with frame_rate := r }

/-- pydub `audio.set_channels(c)`: change the channel count to `c`
(down-mix when smaller). -/
def set_channels (a : AudioSegment) (c : ℤ) : AudioSegment :=
  { a with channels := c }

/-- The post-processing step (lines 86-106): apply the volume gain
(line 99), then — only when the output format is `wav` (line 102) —
resample to `args.sample_rate` (line 104) and down-mix to one channel
(line 106). For `mp3` the buffer is left as decoded, gain apart. -/
def postProcess (args : Args) (native : AudioSegment) : AudioSegment :=
  let audio := applyGain native (db_change args.volume)
  match args.format with
  | .wav => set_channels (set_frame_rate audio args.sample_rate) 1
  | .mp3 => audio

/-- Observable outcome of one invocation of `main`:
the exit code, whether the temporary mp3 file was created (line 72),
the text handed to the synthesis provider when the `Communicate` call
was reached (line 78, `none` if synthesis was never attempted), whether
the temporary file still exists when the process exits (after the
`finally` block, lines 117-121), and the exported audio (`none` when no
output file was produced). -/
structure RunResult where
  exitCode : ℕ
  tmpCreated : Bool
  synthesizedText : Option String
  tmpExistsAtExit : Bool
  outputFile : Option AudioSegment
deriving Repr

/-- Outcome of a validation failure: `sys.exit(1)` before the temporary
file is created and before any synthesis call (lines 37-58). -/
def validationFailure : RunResult :=
  { exitCode := 1, tmpCreated := false, synthesizedText := none,
    tmpExistsAtExit := false, outputFile := none }

/-- The whole of `main` (lines 15-121). After validation the temporary
file is created (line 72); the `try` block synthesizes (lines 77-80) and
post-processes (lines 83-110); any exception prints a diagnostic and
exits with code 1 (lines 114-116); the `finally` block (lines 117-121)
removes the temporary file if it exists, on success and on failure alike
(`sys.exit` raises `SystemExit`, which still runs `finally`). -/
def run (args : Args) (w : World) : RunResult :=
  match resolveText args w with
  | .error _ => validationFailure
  | .ok text =>
    if text == "" then validationFailure
    else
      if w.synthOk then
        let native : AudioSegment :=
          { frame_rate := w.nativeFrameRate, channels := w.nativeChannels, gain_db := 0 }
        if w.postOk then
          { exitCode := 0, tmpCreated := true, synthesizedText := some text,
            tmpExistsAtExit := false, outputFile := some (postProcess args native) }
        else
          { exitCode := 1, tmpCreated := true, synthesizedText := some text,
            tmpExistsAtExit := false, outputFile := none }
      else
        { exitCode := 1, tmpCreated := true, synthesizedText := some text,
          tmpExistsAtExit := false, outputFile := none }

/-- A sample native audio buffer as the provider might return it
(edge-tts emits 24 kHz mp3; the exact values are irrelevant, the model
is polymorphic in them). -/
def sampleNative : AudioSegment :=
  { frame_rate := 24000, channels := 2, gain_db := 0 }

/-- A sample invocation with the defaults of the script
(`--format wav`, `--volume 50`) and `--sample_rate 22050`. -/
def sampleWavArgs : Args :=
  { text := some "Hello World, this is a test.", text_file := none,
    voice := "en-US-SteffanNeural", output := "out.wav", format := .wav,
    sample_rate := 22050, volume := 50, speech_rate := 0, pitch_rate := 0 }

/-- The same invocation with `--format mp3`. -/
def sampleMp3Args : Args :=
  { sampleWavArgs with format := .mp3, output := "out.mp3" }

/-- A sample world where synthesis and post-processing succeed and no
file exists. -/
def sampleWorld : World :=
  { abspath := id, files := fun _ => none, synthOk := true,
    nativeFrameRate := 24000, nativeChannels := 2, postOk := true }

/-- An invocation that reads its text from a file that does not exist. -/
def missingFileArgs : Args :=
  { sampleWavArgs with text := none, text_file := some "missing.txt" }

/-- An invocation with an empty literal `--text`. -/
def emptyTextArgs : Args :=
  { sampleWavArgs with text := some "" }

/-- An invocation with a whitespace-only literal `--text`. -/
def whitespaceTextArgs : Args :=
  { sampleWavArgs with text := some " " }

/-- An invocation reading a text file that holds only whitespace. -/
def blankFileArgs : Args :=
  { sampleWavArgs with text := none, text_file := some "blank.txt" }

/-- A world where `blank.txt` exists and holds only whitespace. -/
def blankFileWorld : World :=
  { sampleWorld with
    files := fun q => if q = "blank.txt" then some (.ok "   ") else none }

/-- Rendering a nonnegative integer after taking its absolute value
agrees with rendering the integer itself. -/
theorem toString_natAbs_of_nonneg (n : ℤ) (h : 0 ≤ n) :
    toString n.natAbs = toString n := by
  obtain ⟨m, rfl⟩ := Int.eq_ofNat_of_zero_le h
  rfl

/-- Rendering a negative integer is a minus sign followed by the
rendering of its absolute value. -/
theorem toString_int_of_neg (n : ℤ) (h : n < 0) :
    toString n = "-" ++ toString n.natAbs := by
  obtain ⟨m, rfl⟩ := Int.eq_negSucc_of_lt_zero h
  rfl

/-- C1: For every integer volume, the gain applied to the decoded audio
buffer is 0 dB when volume is 100 and otherwise equals
-30 * (1 - volume/100) dB; volume 0 gives -30 dB and volume 50
gives -15 dB, and the post-processing step adds exactly this gain to
the buffer for either output format. -/
theorem volume_gain_formula (v : ℤ) (args : Args) (a : AudioSegment) :
    (v = 100 → db_change v = 0) ∧
    (v ≠ 100 → db_change v = -30 * (1 - (v : ℚ) / 100)) ∧
    db_change 0 = -30 ∧ db_change 50 = -15 ∧
    (postProcess args a).gain_db = a.gain_db + db_change args.volume := by
  refine ⟨fun h => by simp [db_change, h],
    fun h => by simp [db_change, h],
    by norm_num [db_change],
    by norm_num [db_change], ?_⟩
  cases hf : args.format <;>
    simp [postProcess, applyGain, set_frame_rate, set_channels, hf]

/-- Witness for C1 at volume 100 and volume 0. -/
theorem volume_gain_formula_witness :
    db_change 100 = 0 ∧ db_change 0 = -30 :=
  ⟨(volume_gain_formula 100 sampleWavArgs sampleNative).1 rfl,
   (volume_gain_formula 0 sampleWavArgs sampleNative).2.2.1⟩

/-- C2: With output format wav, after the gain step the buffer is
resampled to the requested sample rate and down-mixed to one channel,
whatever the provider's native rate and channel count were; hence any
audio a run exports has that sample rate and exactly one channel. -/
theorem wav_output_resampled_mono (args : Args) (h : args.format = Fmt.wav) :
    (∀ native, (postProcess args native).frame_rate = args.sample_rate ∧
      (postProcess args native).channels = 1) ∧
    (∀ w out, (run args w).outputFile = some out →
      out.frame_rate = args.sample_rate ∧ out.channels = 1) := by
  have hp : ∀ native, (postProcess args native).frame_rate = args.sample_rate ∧
      (postProcess args native).channels = 1 := fun native => by
    simp [postProcess, h, applyGain, set_frame_rate, set_channels]
  refine ⟨hp, fun w out hout => ?_⟩
  unfold run at hout
  split at hout
  · simp [validationFailure] at hout
  · split at hout
    · simp [validationFailure] at hout
    · split at hout
      · split at hout
        · simp only [Option.some.injEq] at hout
          exact hout ▸ hp _
        · simp at hout
      · simp at hout

/-- Witness for C2 on a wav run with requested sample rate 22050 and a
24 kHz stereo native buffer. -/
theorem wav_output_resampled_mono_witness :
    (postProcess sampleWavArgs sampleNative).frame_rate = 22050 ∧
    (postProcess sampleWavArgs sampleNative).channels = 1 :=
  (wav_output_resampled_mono sampleWavArgs rfl).1 sampleNative

/-- C3: With output format mp3, post-processing performs no resampling
and no down-mixing: sample rate and channel count of the exported buffer
equal the provider's native ones, and only the gain changes. -/
theorem mp3_preserves_native (args : Args) (native : AudioSegment)
    (h : args.format = Fmt.mp3) :
    (postProcess args native).frame_rate = native.frame_rate ∧
    (postProcess args native).channels = native.channels ∧
    (postProcess args native).gain_db = native.gain_db + db_change args.volume := by
  simp [postProcess, h, applyGain]

/-- Witness for C3 on an mp3 run with a 24 kHz stereo native buffer. -/
theorem mp3_preserves_native_witness :
    (postProcess sampleMp3Args sampleNative).frame_rate = sampleNative.frame_rate ∧
    (postProcess sampleMp3Args sampleNative).channels = sampleNative.channels ∧
    (postProcess sampleMp3Args sampleNative).gain_db =
      sampleNative.gain_db + db_change sampleMp3Args.volume :=
  mp3_preserves_native sampleMp3Args sampleNative rfl

/-- C4: In every run that created the temporary synthesis file, the file
no longer exists when the process exits — on success and when synthesis
or post-processing fails alike (the cleanup runs in a `finally` block). -/
theorem temp_file_deleted_at_process_end (args : Args) (w : World)
    (h : (run args w).tmpCreated = true) :
    (run args w).tmpExistsAtExit = false := by
  unfold run
  repeat' split
  all_goals rfl

/-- Witness for C4 on a successful run. -/
theorem temp_file_deleted_at_process_end_witness :
    (run sampleWavArgs sampleWorld).tmpCreated = true ∧
    (run sampleWavArgs sampleWorld).tmpExistsAtExit = false :=
  ⟨rfl, temp_file_deleted_at_process_end sampleWavArgs sampleWorld rfl⟩

/-- C5: The speech rate is rendered as a signed percentage and the pitch
as a signed Hz delta: nonnegative values get an explicit plus sign
(zero included), negative values keep their minus sign. -/
theorem rate_pitch_format_strings (r p : ℤ) :
    (0 ≤ r → rate_str r = "+" ++ toString r ++ "%") ∧
    (r < 0 → rate_str r = toString r ++ "%") ∧
    (0 ≤ p → pitch_str p = "+" ++ toString p ++ "Hz") ∧
    (p < 0 → pitch_str p = toString p ++ "Hz") ∧
    rate_str 0 = "+0%" ∧ pitch_str 0 = "+0Hz" ∧
    rate_str 10 = "+10%" ∧ rate_str (-5) = "-5%" ∧
    pitch_str 3 = "+3Hz" ∧ pitch_str (-2) = "-2Hz" := by
  refine ⟨fun h => ?_, fun h => ?_, fun h => ?_, fun h => ?_,
    rfl, rfl, rfl, rfl, rfl, rfl⟩
  · rw [rate_str, pyFormatSignedInt, if_pos h, toString_natAbs_of_nonneg r h,
      String.append_assoc]
  · rw [rate_str, pyFormatSignedInt, if_neg (not_le.mpr h),
      ← toString_int_of_neg r h]
  · rw [pitch_str, pyFormatSignedInt, if_pos h, toString_natAbs_of_nonneg p h,
      String.append_assoc]
  · rw [pitch_str, pyFormatSignedInt, if_neg (not_le.mpr h),
      ← toString_int_of_neg p h]

/-- Witness for C5 at rate 10 and pitch -2. -/
theorem rate_pitch_format_strings_witness :
    rate_str 10 = "+" ++ toString (10 : ℤ) ++ "%" ∧
    pitch_str (-2) = toString (-2 : ℤ) ++ "Hz" :=
  ⟨(rate_pitch_format_strings 10 (-2)).1 (by norm_num),
   (rate_pitch_format_strings 10 (-2)).2.2.2.1 (by norm_num)⟩

/-- C6: When no literal text is given and the text file does not exist,
the run exits with code 1, the synthesis provider is never called and
no temporary file is created. -/
theorem missing_text_file_fails_before_synthesis (args : Args) (w : World)
    (p : String) (htext : args.text = none) (hfile : args.text_file = some p)
    (hmissing : w.files (w.abspath p) = none) :
    (run args w).exitCode = 1 ∧ (run args w).synthesizedText = none ∧
    (run args w).tmpCreated = false := by
  by_cases hp : p = ""
  · subst hp
    have hres : resolveText args w = .ok "" := by
      simp [resolveText, pyTruthy, htext, hfile]
    simp [run, hres, validationFailure]
  · have hres : resolveText args w = .error () := by
      simp [resolveText, pyTruthy, htext, hfile, hp, readTextFile, hmissing]
    simp [run, hres, validationFailure]

/-- Witness for C6 with file `missing.txt` absent from the world. -/
theorem missing_text_file_fails_before_synthesis_witness :
    (run missingFileArgs sampleWorld).exitCode = 1 ∧
    (run missingFileArgs sampleWorld).synthesizedText = none ∧
    (run missingFileArgs sampleWorld).tmpCreated = false :=
  missing_text_file_fails_before_synthesis missingFileArgs sampleWorld
    "missing.txt" rfl rfl rfl

/-- C7: When the resolved text (literal, or file content stripped of
surrounding whitespace) is empty, the run exits with code 1 before any
synthesis call and before the temporary file is created. -/
theorem empty_resolved_text_fails (args : Args) (w : World)
    (h : resolveText args w = .ok "") :
    (run args w).exitCode = 1 ∧ (run args w).synthesizedText = none ∧
    (run args w).tmpCreated = false := by
  simp [run, h, validationFailure]

/-- Witness for C7: a text file holding only whitespace strips to the
empty string and the run fails. -/
theorem empty_resolved_text_fails_witness :
    (run blankFileArgs blankFileWorld).exitCode = 1 ∧
    (run blankFileArgs blankFileWorld).synthesizedText = none ∧
    (run blankFileArgs blankFileWorld).tmpCreated = false :=
  empty_resolved_text_fails blankFileArgs blankFileWorld rfl

/-- C8: A literal `--text` value is never stripped: a nonempty
whitespace-only text passes the empty-text validation and is handed to
the synthesis provider unchanged. -/
theorem literal_text_not_stripped (args : Args) (w : World) (s : String)
    (htext : args.text = some s) (hne : s ≠ "")
    (hws : s.data.all Char.isWhitespace = true) :
    (run args w).synthesizedText = some s ∧ (run args w).tmpCreated = true := by
  have hres : resolveText args w = .ok s := by
    simp [resolveText, pyTruthy, htext, hne]
  cases hsy : w.synthOk <;> cases hpo : w.postOk <;>
    simp [run, hres, hne, hsy, hpo]

/-- Witness for C8 with the single-space text. -/
theorem literal_text_not_stripped_witness :
    (run whitespaceTextArgs sampleWorld).synthesizedText = some " " ∧
    (run whitespaceTextArgs sampleWorld).tmpCreated = true :=
  literal_text_not_stripped whitespaceTextArgs sampleWorld " "
    rfl (by decide) (by decide)

/-- C9: The volume is not range-validated: every volume other than 100
goes through -30 * (1 - volume/100) as-is, so a volume above 100 yields
a positive gain (200 gives +30 dB) and a negative volume yields a gain
below -30 dB (-100 gives -60 dB). -/
theorem volume_not_range_validated (v : ℤ) :
    (v ≠ 100 → db_change v = -30 * (1 - (v : ℚ) / 100)) ∧
    (100 < v → 0 < db_change v) ∧
    (v < 0 → db_change v < -30) ∧
    db_change 200 = 30 ∧ db_change (-100) = -60 := by
  refine ⟨fun h => by simp [db_change, h], fun h => ?_, fun h => ?_,
    by norm_num [db_change], by norm_num [db_change]⟩
  · have hv : (100 : ℚ) < (v : ℚ) := by exact_mod_cast h
    rw [db_change, if_neg (by omega)]
    linarith
  · have hv : (v : ℚ) < 0 := by exact_mod_cast h
    rw [db_change, if_neg (by omega)]
    linarith

/-- Witness for C9 at volumes 200 and -100. -/
theorem volume_not_range_validated_witness :
    0 < db_change 200 ∧ db_change (-100) < -30 :=
  ⟨(volume_not_range_validated 200).2.1 (by norm_num),
   (volume_not_range_validated (-100)).2.2.1 (by norm_num)⟩

/-- C10: Every validation failure (missing or unreadable text file,
empty resolved text) exits with code 1 before the temporary file is
created and produces no output file. -/
theorem validation_failure_leaves_no_artifacts (args : Args) (w : World)
    (h : validationFails args w = true) :
    (run args w).exitCode = 1 ∧ (run args w).tmpCreated = false ∧
    (run args w).outputFile = none := by
  unfold validationFails at h
  rcases hr : resolveText args w with e | t
  · simp [run, hr, validationFailure]
  · rw [hr] at h
    simp only [beq_iff_eq] at h
    subst h
    simp [run, hr, validationFailure]

/-- Witness for C10 with an empty literal text. -/
theorem validation_failure_leaves_no_artifacts_witness :
    validationFails emptyTextArgs sampleWorld = true ∧
    (run emptyTextArgs sampleWorld).exitCode = 1 ∧
    (run emptyTextArgs sampleWorld).tmpCreated = false ∧
    (run emptyTextArgs sampleWorld).outputFile = none :=
  ⟨rfl, validation_failure_leaves_no_artifacts emptyTextArgs sampleWorld rfl⟩

end RunTTS
